import Mathlib

/-!
Verification development for the player-status-tracker repository.

The embedding models the presence-and-time-accounting subsystem:
the status transition logic of AuthContext.updateStatus, the
cross-device statistics merge of storage.syncUserStatistics, the quota
evaluation of storage.checkMonthlyNorm, and storage.blockUser.

Timestamps are modelled as integer milliseconds since the Unix epoch
(the code stores ISO strings and compares them via Date.getTime;
ordering and arithmetic agree). Durations folded into counters are
natural numbers, as in the source all additions are guarded by
duration > 0. JavaScript objects keyed by YYYY-MM month strings are
modelled as association lists without duplicate keys; the operations
below reproduce the source object operations exactly (computed-key
update, spread overwrite). Optional / possibly-missing fields of the
User record are modelled as Option, and the falsy-default reads of the
source (x || d) are modelled by jsOrNat and Option.getD.
The floating-point percentage of checkMonthlyNorm is modelled in the
rationals; every statement proved about it (the 100 cap, the exact
values 0 and 100) is exact in binary floating point as well.
-/

namespace PlayerTracker

/-- The three presence statuses of the source union type. -/
inductive Status where
  | online
  | afk
  | offline
deriving DecidableEq

/-- A month-keyed duration object, for fields such as monthlyOnlineTime. -/
abbrev MonthMap := List (String × Nat)

/-- Lookup of a month key in a month map (object property read). -/
def findMonth : MonthMap → String → Option Nat
  | [], _ => none
  | p :: rest, k => if p.1 = k then some p.2 else findMonth rest k

/-- Object read with JavaScript falsy default: m[k] || 0. -/
def getMonth (m : MonthMap) (k : String) : Nat :=
  (findMonth m k).getD 0

/-- Whether the month key is present in the map. -/
def hasMonth (m : MonthMap) (k : String) : Bool :=
  (findMonth m k).isSome

/-- Sum of all monthly values of one map. -/
def sumMonth (m : MonthMap) : Nat :=
  (m.map (fun p => p.2)).sum

/-- The object literal \x7b ...m, [k]: (m[k] || 0) + d \x7d used by
updateStatus: the value at k gains d in place, or a new key is appended. -/
def addMonth : MonthMap → String → Nat → MonthMap
  | [], k, d => [(k, d)]
  | p :: rest, k, d =>
    if p.1 = k then (p.1, p.2 + d) :: rest else p :: addMonth rest k d

/-- First half of the object spread \x7b ...a, ...b \x7d: the entries of a,
with values overwritten by b where b has the same key. -/
def overlayVals : MonthMap → MonthMap → MonthMap
  | [], _ => []
  | p :: rest, b => (p.1, (findMonth b p.1).getD p.2) :: overlayVals rest b

/-- The object spread \x7b ...a, ...b \x7d of two month maps, as performed by
syncUserStatistics on the three monthly duration maps: keys of b
overwrite keys of a, keys present in only one side are carried through. -/
def spreadMerge (a b : MonthMap) : MonthMap :=
  overlayVals a b ++ b.filter (fun q => !hasMonth a q.1)

/-- JavaScript falsy-default read on an optional number: o || d
(both a missing field and the number 0 fall back to d). -/
def jsOrNat (o : Option Nat) (d : Nat) : Nat :=
  match o with
  | some n => if n = 0 then d else n
  | none => d

/-- Days-since-epoch to civil (year, month), the standard civil-calendar
conversion implemented by Date; month is 1..12. -/
def civilFromDays (z0 : Int) : Int × Nat :=
  let z := z0 + 719468
  let era := Int.fdiv z 146097
  let doe := (z - era * 146097).toNat
  let yoe := (doe - doe / 1460 + doe / 36524 - doe / 146096) / 365
  let doy := doe - (365 * yoe + yoe / 4 - yoe / 100)
  let mp := (5 * doy + 2) / 153
  let m := if mp < 10 then mp + 3 else mp - 9
  let y := era * 400 + (yoe : Int) + (if m ≤ 2 then 1 else 0)
  (y, m)

/-- Two-digit month rendering: String(month).padStart(2, zero). -/
def pad2 (n : Nat) : String :=
  if n < 10 then "0" ++ toString n else toString n

/-- Format a (year, month) pair as the YYYY-MM month key. -/
def fmtMonthKey (ym : Int × Nat) : String :=
  toString ym.1 ++ "-" ++ pad2 ym.2

/-- Month key computed by updateStatus from the local calendar:
getFullYear()-getMonth()+1 of now, where local time is UTC shifted by
offsetMin minutes. -/
def monthKeyLocal (offsetMin now : Int) : String :=
  fmtMonthKey (civilFromDays (Int.fdiv (now + offsetMin * 60000) 86400000))

/-- Month key computed by checkMonthlyNorm as its default target month:
new Date().toISOString().slice(0, 7), i.e. the UTC calendar. -/
def monthKeyUTC (now : Int) : String :=
  fmtMonthKey (civilFromDays (Int.fdiv now 86400000))

/-- The User record of the source, restricted to the fields the
presence-accounting subsystem reads and writes. Stat fields that the
source reads defensively (x || 0, x?.[] and spreads of x || empty) are
Option, so a malformed record with a missing field is representable. -/
structure User where
  nickname : String
  status : Status
  lastActivity : Int
  lastStatusTimestamp : Option Int
  totalOnlineTime : Option Nat
  totalAfkTime : Option Nat
  totalOfflineTime : Option Nat
  monthlyOnlineTime : Option MonthMap
  monthlyAfkTime : Option MonthMap
  monthlyOfflineTime : Option MonthMap
  monthlyNorm : Option Nat
  isBlocked : Bool
  blockReason : Option String
  blockedAt : Option Int
  blockedBy : Option String
deriving DecidableEq

/-- Lifetime total of a given status. -/
def User.totalOf (u : User) : Status → Option Nat
  | Status.online => u.totalOnlineTime
  | Status.afk => u.totalAfkTime
  | Status.offline => u.totalOfflineTime

/-- Monthly duration map of a given status. -/
def User.monthlyOf (u : User) : Status → Option MonthMap
  | Status.online => u.monthlyOnlineTime
  | Status.afk => u.monthlyAfkTime
  | Status.offline => u.monthlyOfflineTime

/-- The ActivityRecord emitted by updateStatus: new status,
previous status, timestamp, and the raw computed duration. -/
structure ActivityRecord where
  status : Status
  previousStatus : Status
  timestamp : Int
  duration : Int
deriving DecidableEq

/-- The raw elapsed duration computed by updateStatus:
now - lastStatusTimestamp, or 0 when the timestamp is unset; it can be
negative under clock skew. -/
def durationOf (u : User) (now : Int) : Int :=
  match u.lastStatusTimestamp with
  | some t => now - t
  | none => 0

/-- AuthContext.updateStatus: if the requested status differs from the
current one, compute duration = now - lastStatusTimestamp (0 when the
timestamp is unset), fold the duration into the lifetime total and the
monthly map of the previous status only when duration > 0 (under the
local month key of now), set the new status and refresh both
timestamps, and emit an activity record carrying the raw duration.
If the requested status equals the current one the guard fails and
nothing happens at all. -/
def updateStatus (offsetMin : Int) (u : User) (newStatus : Status) (now : Int) :
    User × Option ActivityRecord :=
  if u.status = newStatus then (u, none)
  else
    let monthKey := monthKeyLocal offsetMin now
    let duration : Int := durationOf u now
    let u1 : User :=
      { u with status := newStatus, lastActivity := now,
               lastStatusTimestamp := some now }
    let u2 : User :=
      if 0 < duration then
        match u.status with
        | Status.online =>
          { u1 with
            totalOnlineTime := some (u.totalOnlineTime.getD 0 + duration.toNat),
            monthlyOnlineTime :=
              some (addMonth (u.monthlyOnlineTime.getD []) monthKey duration.toNat) }
        | Status.afk =>
          { u1 with
            totalAfkTime := some (u.totalAfkTime.getD 0 + duration.toNat),
            monthlyAfkTime :=
              some (addMonth (u.monthlyAfkTime.getD []) monthKey duration.toNat) }
        | Status.offline =>
          { u1 with
            totalOfflineTime := some (u.totalOfflineTime.getD 0 + duration.toNat),
            monthlyOfflineTime :=
              some (addMonth (u.monthlyOfflineTime.getD []) monthKey duration.toNat) }
      else u1
    (u2, some { status := newStatus, previousStatus := u.status,
                timestamp := now, duration := duration })

/-- The incoming updates argument of syncUserStatistics
(a record in which every field may be absent). -/
structure Updates where
  nickname : Option String
  status : Option Status
  lastActivity : Option Int
  lastStatusTimestamp : Option Int
  totalOnlineTime : Option Nat
  totalAfkTime : Option Nat
  totalOfflineTime : Option Nat
  monthlyOnlineTime : Option MonthMap
  monthlyAfkTime : Option MonthMap
  monthlyOfflineTime : Option MonthMap
  monthlyNorm : Option Nat
  isBlocked : Option Bool
deriving DecidableEq

/-- View a full user record as an updates record with every field present,
as happens when a whole user object is passed as the updates argument. -/
def toUpdates (u : User) : Updates :=
  { nickname := some u.nickname
    status := some u.status
    lastActivity := some u.lastActivity
    lastStatusTimestamp := u.lastStatusTimestamp
    totalOnlineTime := u.totalOnlineTime
    totalAfkTime := u.totalAfkTime
    totalOfflineTime := u.totalOfflineTime
    monthlyOnlineTime := u.monthlyOnlineTime
    monthlyAfkTime := u.monthlyAfkTime
    monthlyOfflineTime := u.monthlyOfflineTime
    monthlyNorm := u.monthlyNorm
    isBlocked := u.isBlocked }

/-- storage.syncUserStatistics, the pure merge of the stored user with an
incoming updates record: the generic spreads carry updates fields over
current ones, then the explicit fields override — the three lifetime
totals take the maximum of the two falsy-defaulted sides, the three
monthly maps take the object spread (updates keys overwrite), and
status and the two timestamps take the updates side when present. -/
def syncUserStatistics (current : User) (upd : Updates) : User :=
  { current with
    nickname := upd.nickname.getD current.nickname
    status := upd.status.getD current.status
    lastActivity := upd.lastActivity.getD current.lastActivity
    lastStatusTimestamp :=
      match upd.lastStatusTimestamp with
      | some t => some t
      | none => current.lastStatusTimestamp
    totalOnlineTime :=
      some (max (current.totalOnlineTime.getD 0) (upd.totalOnlineTime.getD 0))
    totalAfkTime :=
      some (max (current.totalAfkTime.getD 0) (upd.totalAfkTime.getD 0))
    totalOfflineTime :=
      some (max (current.totalOfflineTime.getD 0) (upd.totalOfflineTime.getD 0))
    monthlyOnlineTime :=
      some (spreadMerge (current.monthlyOnlineTime.getD [])
        (upd.monthlyOnlineTime.getD []))
    monthlyAfkTime :=
      some (spreadMerge (current.monthlyAfkTime.getD [])
        (upd.monthlyAfkTime.getD []))
    monthlyOfflineTime :=
      some (spreadMerge (current.monthlyOfflineTime.getD [])
        (upd.monthlyOfflineTime.getD []))
    monthlyNorm :=
      match upd.monthlyNorm with
      | some n => some n
      | none => current.monthlyNorm
    isBlocked := upd.isBlocked.getD current.isBlocked }

/-- The system settings field read by checkMonthlyNorm. -/
structure SystemSettings where
  minimumMonthlyNorm : Option Nat
deriving DecidableEq

/-- The record returned by checkMonthlyNorm. -/
structure NormStatus where
  meetsNorm : Bool
  currentHours : Nat
  requiredHours : Nat
  percentage : ℚ
deriving DecidableEq

/-- storage.checkMonthlyNorm for an explicit target month: hours are
Math.round(milliseconds / 3600000), i.e. round half up; the required
hours fall back from a falsy monthlyNorm to the falsy-defaulted system
minimum (default 160); the percentage is capped at 100. -/
def checkMonthlyNorm (settings : SystemSettings) (u : User) (month : String) :
    NormStatus :=
  let minimumNorm := jsOrNat settings.minimumMonthlyNorm 160
  let monthlyHours := getMonth (u.monthlyOnlineTime.getD []) month
  let currentHours := (monthlyHours + 1800000) / 3600000
  let requiredHours := jsOrNat u.monthlyNorm minimumNorm
  let percentage : ℚ := (currentHours : ℚ) / (requiredHours : ℚ) * 100
  { meetsNorm := decide (requiredHours ≤ currentHours)
    currentHours := currentHours
    requiredHours := requiredHours
    percentage := min percentage 100 }

/-- storage.blockUser, restricted to the blocked user's record: sets the
block fields and forces the status offline, leaving everything else as
it was. -/
def blockUser (u : User) (reason : String) (adminId : String) (now : Int) :
    User :=
  { u with
    isBlocked := true
    blockReason := some reason
    blockedAt := some now
    blockedBy := some adminId
    status := Status.offline }

/-- The accounting identity of the spec: each lifetime total equals the
sum of the corresponding monthly map. -/
def accIdentity (u : User) : Prop :=
  u.totalOnlineTime.getD 0 = sumMonth (u.monthlyOnlineTime.getD []) ∧
  u.totalAfkTime.getD 0 = sumMonth (u.monthlyAfkTime.getD []) ∧
  u.totalOfflineTime.getD 0 = sumMonth (u.monthlyOfflineTime.getD [])

instance (u : User) : Decidable (accIdentity u) := by
  unfold accIdentity; infer_instance

/-- The freshly-seeded user record of createSecureUser: offline, all
totals zero, all monthly maps empty. -/
def seedLedger : User :=
  { nickname := "u"
    status := Status.offline
    lastActivity := 0
    lastStatusTimestamp := none
    totalOnlineTime := some 0
    totalAfkTime := some 0
    totalOfflineTime := some 0
    monthlyOnlineTime := some []
    monthlyAfkTime := some []
    monthlyOfflineTime := some []
    monthlyNorm := some 160
    isBlocked := false
    blockReason := none
    blockedAt := none
    blockedBy := none }

/-- Default system settings: minimum monthly norm 160 hours. -/
def settings0 : SystemSettings :=
  { minimumMonthlyNorm := some 160 }

/-- A ledger reached from the seed by two transitions inside January
1970: online at time 0, then afk at 5000. -/
def ledgerA : User :=
  (updateStatus 0 (updateStatus 0 seedLedger Status.online 0).1
    Status.afk 5000).1

/-- A ledger reached from the seed by two transitions inside February
1970: online at 2678400000, then afk 3000 ms later. -/
def ledgerB : User :=
  (updateStatus 0 (updateStatus 0 seedLedger Status.online 2678400000).1
    Status.afk 2678403000).1

/-- Divergent copy with 8000 ms online in January 2025. -/
def mergeA : User :=
  { seedLedger with
    totalOnlineTime := some 8000
    monthlyOnlineTime := some [("2025-01", 8000)] }

/-- Divergent copy with 5000 ms online in January 2025. -/
def mergeB : User :=
  { seedLedger with
    totalOnlineTime := some 5000
    monthlyOnlineTime := some [("2025-01", 5000)] }

/-- An online ledger whose current status began at time 1000. -/
def skewLedger : User :=
  { seedLedger with
    status := Status.online
    lastStatusTimestamp := some 1000 }

/-- A ledger whose last activity was observed at time 100. -/
def lastSeenLedger : User :=
  { seedLedger with lastActivity := 100 }

/-- A ledger with exactly 160 online hours recorded for March 2025
against a 160-hour norm. -/
def boundLedger : User :=
  { seedLedger with monthlyOnlineTime := some [("2025-03", 576000000)] }

/-- A ledger with exactly half an hour of online time in January 2025. -/
def halfHourLedger : User :=
  { seedLedger with monthlyOnlineTime := some [("2025-01", 1800000)] }

/-- A ledger whose per-user monthly norm is the number 0. -/
def zeroNormLedger : User :=
  { seedLedger with monthlyNorm := some 0 }

/-- A malformed online ledger: the online lifetime total and the online
monthly map are missing entirely. -/
def malformedLedger : User :=
  { seedLedger with
    status := Status.online
    lastStatusTimestamp := some 1000
    totalOnlineTime := none
    monthlyOnlineTime := none }

theorem sumMonth_nil : sumMonth [] = 0 := rfl

theorem sumMonth_cons (p : String × Nat) (rest : MonthMap) :
    sumMonth (p :: rest) = p.2 + sumMonth rest := by
  simp [sumMonth]

/-- Adding d under a month key grows the map total by exactly d. -/
theorem sumMonth_addMonth (m : MonthMap) (k : String) (d : Nat) :
    sumMonth (addMonth m k d) = sumMonth m + d := by
  induction m with
  | nil => simp [addMonth, sumMonth]
  | cons p rest ih =>
    by_cases h : p.1 = k
    · simp [addMonth, h, sumMonth_cons]
      omega
    · simp [addMonth, h, sumMonth_cons, ih]
      omega

/-- Adding d under a month key grows the value at that key by d. -/
theorem getMonth_addMonth_self (m : MonthMap) (k : String) (d : Nat) :
    getMonth (addMonth m k d) k = getMonth m k + d := by
  induction m with
  | nil => simp [addMonth, getMonth, findMonth]
  | cons p rest ih =>
    by_cases h : p.1 = k
    · simp [addMonth, h, getMonth, findMonth]
    · simpa [addMonth, h, getMonth, findMonth] using ih

theorem findMonth_append (a b : MonthMap) (k : String) :
    findMonth (a ++ b) k =
      match findMonth a k with
      | some v => some v
      | none => findMonth b k := by
  induction a with
  | nil => simp [findMonth]
  | cons p rest ih =>
    by_cases h : p.1 = k
    · simp [findMonth, h]
    · simp [findMonth, h, ih]

theorem findMonth_overlayVals (a b : MonthMap) (k : String) :
    findMonth (overlayVals a b) k =
      match findMonth a k with
      | some v => some ((findMonth b k).getD v)
      | none => none := by
  induction a with
  | nil => simp [overlayVals, findMonth]
  | cons p rest ih =>
    by_cases h : p.1 = k
    · simp [overlayVals, findMonth, h]
    · simp [overlayVals, findMonth, h, ih]

theorem findMonth_filterAbsent (a b : MonthMap) (k : String) :
    findMonth (b.filter (fun q => !hasMonth a q.1)) k =
      if hasMonth a k then none else findMonth b k := by
  induction b with
  | nil => simp [findMonth]
  | cons q rest ih =>
    by_cases hq : q.1 = k
    · by_cases ha : hasMonth a k
      · subst hq
        simp [List.filter, ha, findMonth, ih]
      · subst hq
        simp [List.filter, ha, findMonth]
    · by_cases haq : hasMonth a q.1
      · simp [List.filter, haq, findMonth, hq, ih]
      · simp [List.filter, haq, findMonth, hq, ih]

/-- Lookup after the object spread: a key present in the update side
takes the update value, any other key keeps the current value. -/
theorem getMonth_spreadMerge (a b : MonthMap) (k : String) :
    getMonth (spreadMerge a b) k =
      if hasMonth b k then getMonth b k else getMonth a k := by
  unfold spreadMerge getMonth
  rw [findMonth_append, findMonth_overlayVals, findMonth_filterAbsent]
  unfold hasMonth
  cases hfa : findMonth a k with
  | some v =>
    cases hfb : findMonth b k with
    | some w => simp [hfa, hfb]
    | none => simp [hfa, hfb]
  | none =>
    cases hfb : findMonth b k with
    | some w => simp [hfa, hfb]
    | none => simp [hfa, hfb]

/-- The falsy-defaulted norm read is positive when the fallback is. -/
theorem jsOrNat_pos (o : Option Nat) (d : Nat) (hd : 0 < d) :
    0 < jsOrNat o d := by
  cases o with
  | none => simpa [jsOrNat] using hd
  | some n =>
    by_cases h : n = 0
    · simpa [jsOrNat, h] using hd
    · simpa [jsOrNat, h] using Nat.pos_of_ne_zero h

/-- C5 (amended): a transition requesting the ledger's current status is
a complete no-op — the ledger is returned entirely unchanged (the last
seen timestamp is not refreshed) and no event is emitted, so repeating
it any number of times changes no duration field. -/
theorem c5_noop_transition_is_identity (offsetMin now : Int) (u : User) :
    updateStatus offsetMin u u.status now = (u, none) := by
  simp [updateStatus]

/-- C5 counterexample: the claim says a no-op transition still refreshes
a last-seen timestamp; in the code the guard skips everything, so
lastActivity stays 100 after a no-op transition at time 200. -/
theorem c5_noop_does_not_refresh :
    updateStatus 0 lastSeenLedger Status.offline 200 = (lastSeenLedger, none) ∧
    lastSeenLedger.lastActivity = 100 ∧ (100 : Int) ≠ 200 := by
  decide

/-- C10: blocking a user forces the status offline and sets isBlocked,
while every duration counter, every monthly map, and both activity
timestamps are left unchanged. -/
theorem c10_blockUser_frame (u : User) (reason adminId : String) (now : Int) :
    (blockUser u reason adminId now).status = Status.offline ∧
    (blockUser u reason adminId now).isBlocked = true ∧
    (blockUser u reason adminId now).totalOnlineTime = u.totalOnlineTime ∧
    (blockUser u reason adminId now).totalAfkTime = u.totalAfkTime ∧
    (blockUser u reason adminId now).totalOfflineTime = u.totalOfflineTime ∧
    (blockUser u reason adminId now).monthlyOnlineTime = u.monthlyOnlineTime ∧
    (blockUser u reason adminId now).monthlyAfkTime = u.monthlyAfkTime ∧
    (blockUser u reason adminId now).monthlyOfflineTime = u.monthlyOfflineTime ∧
    (blockUser u reason adminId now).lastStatusTimestamp =
      u.lastStatusTimestamp ∧
    (blockUser u reason adminId now).lastActivity = u.lastActivity := by
  simp [blockUser]

/-- C6: the month key under which a transition records a duration is
computed from the local calendar, while the quota evaluator reads under
the UTC calendar key; at 2025-01-31T23:30Z in a UTC+2 locale the two
keys differ, so the recorded duration is looked up under the wrong key. -/
theorem c6_month_key_mismatch :
    monthKeyLocal 120 1738366200000 = "2025-02" ∧
    monthKeyUTC 1738366200000 = "2025-01" ∧
    monthKeyLocal 120 1738366200000 ≠ monthKeyUTC 1738366200000 := by
  refine ⟨by decide, by decide, by decide⟩

/-- C2 (amended): the statistics merge takes the maximum of the two
falsy-defaulted sides for each of the three lifetime totals, but the
monthly maps are combined by the object spread: a month key present in
the incoming update side takes the update value (overwrite, not max),
and a key present in only one side is carried through unchanged. -/
theorem c2_merge_characterization (current : User) (upd : Updates) :
    (syncUserStatistics current upd).totalOnlineTime =
      some (max (current.totalOnlineTime.getD 0) (upd.totalOnlineTime.getD 0)) ∧
    (syncUserStatistics current upd).totalAfkTime =
      some (max (current.totalAfkTime.getD 0) (upd.totalAfkTime.getD 0)) ∧
    (syncUserStatistics current upd).totalOfflineTime =
      some (max (current.totalOfflineTime.getD 0) (upd.totalOfflineTime.getD 0)) ∧
    (∀ k : String,
      getMonth ((syncUserStatistics current upd).monthlyOnlineTime.getD []) k =
        if hasMonth (upd.monthlyOnlineTime.getD []) k
        then getMonth (upd.monthlyOnlineTime.getD []) k
        else getMonth (current.monthlyOnlineTime.getD []) k) ∧
    (∀ k : String,
      getMonth ((syncUserStatistics current upd).monthlyAfkTime.getD []) k =
        if hasMonth (upd.monthlyAfkTime.getD []) k
        then getMonth (upd.monthlyAfkTime.getD []) k
        else getMonth (current.monthlyAfkTime.getD []) k) ∧
    (∀ k : String,
      getMonth ((syncUserStatistics current upd).monthlyOfflineTime.getD []) k =
        if hasMonth (upd.monthlyOfflineTime.getD []) k
        then getMonth (upd.monthlyOfflineTime.getD []) k
        else getMonth (current.monthlyOfflineTime.getD []) k) := by
  refine ⟨rfl, rfl, rfl, ?_, ?_, ?_⟩ <;>
    intro k <;> simp [syncUserStatistics, getMonth_spreadMerge]

/-- C2 counterexample: two same-user copies both carrying January 2025
online time (8000 ms vs 5000 ms); the merged monthly value is the
incoming side's 5000, not the maximum 8000 that the claim requires. -/
theorem c2_monthly_merge_not_max :
    getMonth
      ((syncUserStatistics mergeA (toUpdates mergeB)).monthlyOnlineTime.getD [])
      "2025-01" = 5000 ∧
    max (getMonth (mergeA.monthlyOnlineTime.getD []) "2025-01")
      (getMonth (mergeB.monthlyOnlineTime.getD []) "2025-01") = 8000 ∧
    (5000 : Nat) ≠ 8000 := by
  decide

/-- C3 (amended): the lifetime-total components of the merge are
commutative (pointwise maximum), even though the merge as a whole is
not. -/
theorem c3_lifetime_merge_commutative (a b : User) :
    (syncUserStatistics a (toUpdates b)).totalOnlineTime =
      (syncUserStatistics b (toUpdates a)).totalOnlineTime ∧
    (syncUserStatistics a (toUpdates b)).totalAfkTime =
      (syncUserStatistics b (toUpdates a)).totalAfkTime ∧
    (syncUserStatistics a (toUpdates b)).totalOfflineTime =
      (syncUserStatistics b (toUpdates a)).totalOfflineTime := by
  refine ⟨?_, ?_, ?_⟩ <;> simp [syncUserStatistics, toUpdates, Nat.max_comm]

/-- C3 counterexample: merging the two January 2025 copies in the two
orders yields different ledgers (the shared month key keeps 5000 one
way and 8000 the other), so the merge is not commutative. -/
theorem c3_merge_not_commutative :
    syncUserStatistics mergeA (toUpdates mergeB) ≠
      syncUserStatistics mergeB (toUpdates mergeA) := by
  decide

/-- C1 (amended): the accounting identity is preserved by every status
transition — if each lifetime total equals the sum of its monthly map
before updateStatus, the same holds afterwards. (The merge does not
preserve the identity; see the counterexample.) -/
theorem c1_transition_preserves_identity (offsetMin : Int) (u : User)
    (st : Status) (now : Int) (h : accIdentity u) :
    accIdentity (updateStatus offsetMin u st now).1 := by
  unfold accIdentity at h ⊢
  obtain ⟨h1, h2, h3⟩ := h
  unfold updateStatus
  by_cases hne : u.status = st
  · simp only [if_pos hne]
    exact ⟨h1, h2, h3⟩
  · simp only [if_neg hne]
    by_cases hd : (0 : Int) < durationOf u now
    · rcases hu : u.status with _ | _ | _ <;>
        simp [hu, hd, sumMonth_addMonth, h1, h2, h3]
    · simp [hd, h1, h2, h3]

/-- C1 witness: the seeded ledger satisfies the identity and a concrete
transition out of it preserves the identity. -/
theorem c1_transition_preserves_identity_witness :
    accIdentity seedLedger ∧
    accIdentity (updateStatus 0 seedLedger Status.online 0).1 :=
  ⟨by decide,
   c1_transition_preserves_identity 0 seedLedger Status.online 0 (by decide)⟩

/-- C1 counterexample: two ledgers reached from the seed purely by
status transitions (one accumulating 5000 ms online in January 1970,
one 3000 ms in February 1970) both satisfy the accounting identity,
but their merge does not: the lifetime total becomes max 5000 while
the monthly map keeps both months and sums to 8000. -/
theorem c1_merge_breaks_identity :
    accIdentity ledgerA ∧ accIdentity ledgerB ∧
    ¬ accIdentity (syncUserStatistics ledgerA (toUpdates ledgerB)) := by
  decide

/-- C4 (amended): a transition to a different status adds
max(0, now - statusStartedAt) (0 when the timestamp is unset) to the
lifetime total and to the local-month entry of the old status, sets the
new status and start timestamp, and emits an event with the previous
status and the new status — but the event carries the raw difference
now - statusStartedAt, which is negative under clock skew, rather than
the clamped elapsed value; the counters always receive the clamped
value and no error is raised. -/
theorem c4_transition_accounting (offsetMin : Int) (u : User) (st : Status)
    (now : Int) (hne : u.status ≠ st) :
    (updateStatus offsetMin u st now).1.status = st ∧
    (updateStatus offsetMin u st now).1.lastStatusTimestamp = some now ∧
    ((updateStatus offsetMin u st now).1.totalOf u.status).getD 0 =
      (u.totalOf u.status).getD 0 + (durationOf u now).toNat ∧
    getMonth (((updateStatus offsetMin u st now).1.monthlyOf u.status).getD [])
        (monthKeyLocal offsetMin now) =
      getMonth ((u.monthlyOf u.status).getD []) (monthKeyLocal offsetMin now) +
        (durationOf u now).toNat ∧
    (updateStatus offsetMin u st now).2 =
      some { status := st, previousStatus := u.status, timestamp := now,
             duration := durationOf u now } := by
  unfold updateStatus
  rw [if_neg hne]
  by_cases hd : (0 : Int) < durationOf u now
  · rcases hu : u.status with _ | _ | _ <;>
      simp [hu, hd, User.totalOf, User.monthlyOf, getMonth_addMonth_self]
  · have h0 : (durationOf u now).toNat = 0 :=
      Int.toNat_of_nonpos (le_of_not_lt hd)
    rcases hu : u.status with _ | _ | _ <;>
      simp [hu, hd, h0, User.totalOf, User.monthlyOf]

/-- C4 witness: a concrete transition online → afk one hour after the
status started adds 3600000 ms to the online counters and emits the
event with that duration. -/
theorem c4_transition_accounting_witness :
    skewLedger.status ≠ Status.afk ∧
    (((updateStatus 0 skewLedger Status.afk 3601000).1.totalOf
        skewLedger.status).getD 0 =
      (skewLedger.totalOf skewLedger.status).getD 0 +
        (durationOf skewLedger 3601000).toNat) ∧
    (updateStatus 0 skewLedger Status.afk 3601000).2 =
      some { status := Status.afk, previousStatus := skewLedger.status,
             timestamp := 3601000, duration := durationOf skewLedger 3601000 } :=
  ⟨by decide,
   (c4_transition_accounting 0 skewLedger Status.afk 3601000 (by decide)).2.2.1,
   (c4_transition_accounting 0 skewLedger Status.afk 3601000
     (by decide)).2.2.2.2⟩

/-- C4 counterexample: with now one millisecond before statusStartedAt
the counters receive 0 as the claim says, but the emitted event carries
duration -1, not the claimed elapsed value 0. -/
theorem c4_event_duration_negative :
    (updateStatus 0 skewLedger Status.afk 999).2 =
      some { status := Status.afk, previousStatus := Status.online,
             timestamp := 999, duration := -1 } ∧
    (updateStatus 0 skewLedger Status.afk 999).1.totalOnlineTime =
      skewLedger.totalOnlineTime ∧
    (-1 : Int) ≠ 0 := by
  decide

/-- C9 (amended): a malformed ledger whose online lifetime total and
online monthly map are missing is not rejected: the transition engine
silently substitutes 0 and the empty map, produces the normally updated
ledger, and still emits an event. -/
theorem c9_missing_fields_defaulted (offsetMin : Int) (u : User) (st : Status)
    (now t : Int) (hst : u.status = Status.online) (hne : st ≠ Status.online)
    (hts : u.lastStatusTimestamp = some t) (hpos : 0 < now - t)
    (hton : u.totalOnlineTime = none) (hmon : u.monthlyOnlineTime = none) :
    (updateStatus offsetMin u st now).1.totalOnlineTime =
      some (now - t).toNat ∧
    (updateStatus offsetMin u st now).1.monthlyOnlineTime =
      some [(monthKeyLocal offsetMin now, (now - t).toNat)] ∧
    ((updateStatus offsetMin u st now).2).isSome = true := by
  have hne2 : u.status ≠ st := by
    rw [hst]
    exact fun hh => hne hh.symm
  have hd : (0 : Int) < durationOf u now := by
    simpa [durationOf, hts] using hpos
  have hlt : t < now := by omega
  unfold updateStatus
  rw [if_neg hne2]
  simp [hst, hd, hts, hton, hmon, durationOf, addMonth, hlt]

/-- C9 witness: the concrete malformed ledger flows through the
transition at time 6000 with the missing fields treated as zero. -/
theorem c9_missing_fields_defaulted_witness :
    malformedLedger.status = Status.online ∧
    malformedLedger.totalOnlineTime = none ∧
    ((updateStatus 0 malformedLedger Status.afk 6000).1.totalOnlineTime =
      some ((6000 : Int) - 1000).toNat ∧
     (updateStatus 0 malformedLedger Status.afk 6000).1.monthlyOnlineTime =
      some [(monthKeyLocal 0 6000, ((6000 : Int) - 1000).toNat)] ∧
     ((updateStatus 0 malformedLedger Status.afk 6000).2).isSome = true) :=
  ⟨rfl, rfl,
   c9_missing_fields_defaulted 0 malformedLedger Status.afk 6000 1000 rfl
     (by decide) rfl (by decide) rfl rfl⟩

/-- C9 counterexample: the claim says malformed input must signal an
error; instead the transition on a ledger with the online total and
monthly map missing returns a normal updated ledger with defaults
substituted, and the quota evaluator likewise evaluates it normally. -/
theorem c9_malformed_silently_defaulted :
    (updateStatus 0 malformedLedger Status.afk 6000).1.totalOnlineTime =
      some 5000 ∧
    (updateStatus 0 malformedLedger Status.afk 6000).1.monthlyOnlineTime =
      some [("1970-01", 5000)] ∧
    (checkMonthlyNorm settings0 malformedLedger "2025-01").currentHours = 0 ∧
    (checkMonthlyNorm settings0 malformedLedger "2025-01").requiredHours =
      160 := by
  decide

/-- C7 (amended): the quota evaluation returns
completedHours = round(monthlyDuration[Online][monthKey] / 3600000)
(round half up, not floor), meetsNorm = (completedHours >=
requiredHours), a percentage capped at 100, and at the boundary
completedHours = requiredHours it yields meetsNorm = true and
percentage = 100. -/
theorem c7_norm_evaluation (settings : SystemSettings) (u : User)
    (month : String) :
    (checkMonthlyNorm settings u month).currentHours =
      (getMonth (u.monthlyOnlineTime.getD []) month + 1800000) / 3600000 ∧
    (checkMonthlyNorm settings u month).meetsNorm =
      decide ((checkMonthlyNorm settings u month).requiredHours ≤
        (checkMonthlyNorm settings u month).currentHours) ∧
    (checkMonthlyNorm settings u month).percentage ≤ 100 ∧
    ((checkMonthlyNorm settings u month).currentHours =
        (checkMonthlyNorm settings u month).requiredHours →
      (checkMonthlyNorm settings u month).meetsNorm = true ∧
      (checkMonthlyNorm settings u month).percentage = 100) := by
  have hrh : (checkMonthlyNorm settings u month).requiredHours =
      jsOrNat u.monthlyNorm (jsOrNat settings.minimumMonthlyNorm 160) := rfl
  have hmn : (checkMonthlyNorm settings u month).meetsNorm =
      decide ((checkMonthlyNorm settings u month).requiredHours ≤
        (checkMonthlyNorm settings u month).currentHours) := rfl
  have hp : (checkMonthlyNorm settings u month).percentage =
      min (((checkMonthlyNorm settings u month).currentHours : ℚ) /
        ((checkMonthlyNorm settings u month).requiredHours : ℚ) * 100) 100 :=
    rfl
  have hreqpos : 0 < (checkMonthlyNorm settings u month).requiredHours := by
    rw [hrh]
    exact jsOrNat_pos _ _ (jsOrNat_pos _ _ (by norm_num))
  refine ⟨rfl, hmn, ?_, ?_⟩
  · rw [hp]
    exact min_le_right _ _
  · intro hEq
    refine ⟨?_, ?_⟩
    · rw [hmn, hEq]
      simp
    · rw [hp, hEq]
      have hne0 : (((checkMonthlyNorm settings u month).requiredHours : ℚ)) ≠ 0 :=
        Nat.cast_ne_zero.mpr hreqpos.ne'
      rw [div_self hne0, one_mul, min_self]

/-- C7 witness: a ledger with exactly 160 online hours recorded for
March 2025 against a 160-hour norm hits the boundary and gets
meetsNorm = true and percentage = 100. -/
theorem c7_norm_evaluation_witness :
    (checkMonthlyNorm settings0 boundLedger "2025-03").currentHours =
      (checkMonthlyNorm settings0 boundLedger "2025-03").requiredHours ∧
    ((checkMonthlyNorm settings0 boundLedger "2025-03").meetsNorm = true ∧
     (checkMonthlyNorm settings0 boundLedger "2025-03").percentage = 100) :=
  ⟨by decide,
   (c7_norm_evaluation settings0 boundLedger "2025-03").2.2.2 (by decide)⟩

/-- C7 counterexample: half an hour (1800000 ms) of online time yields
completedHours = 1 in the code (round half up), while the claimed
floor(1800000 / 3600000) is 0. -/
theorem c7_completed_hours_rounds :
    (checkMonthlyNorm settings0 halfHourLedger "2025-01").currentHours = 1 ∧
    1800000 / 3600000 = 0 ∧ (1 : Nat) ≠ 0 := by
  decide

/-- C8 (amended): a per-user monthlyNorm of 0 is falsy, so the quota
evaluation silently falls back to the system minimum norm (160 by
default) and computes meetsNorm against that fallback — there is no
special case returning percentage 100 and meetsNorm true. -/
theorem c8_zero_norm_falls_back (settings : SystemSettings) (u : User)
    (month : String) (h : u.monthlyNorm = some 0) :
    (checkMonthlyNorm settings u month).requiredHours =
      jsOrNat settings.minimumMonthlyNorm 160 ∧
    (checkMonthlyNorm settings u month).meetsNorm =
      decide (jsOrNat settings.minimumMonthlyNorm 160 ≤
        (checkMonthlyNorm settings u month).currentHours) := by
  have hrh : (checkMonthlyNorm settings u month).requiredHours =
      jsOrNat u.monthlyNorm (jsOrNat settings.minimumMonthlyNorm 160) := rfl
  have hreq : (checkMonthlyNorm settings u month).requiredHours =
      jsOrNat settings.minimumMonthlyNorm 160 := by
    rw [hrh, h]
    simp [jsOrNat]
  refine ⟨hreq, ?_⟩
  rw [show (checkMonthlyNorm settings u month).meetsNorm =
      decide ((checkMonthlyNorm settings u month).requiredHours ≤
        (checkMonthlyNorm settings u month).currentHours) from rfl, hreq]

/-- C8 witness: the concrete zero-norm ledger is evaluated against the
160-hour system minimum. -/
theorem c8_zero_norm_falls_back_witness :
    zeroNormLedger.monthlyNorm = some 0 ∧
    ((checkMonthlyNorm settings0 zeroNormLedger "2025-01").requiredHours =
      jsOrNat settings0.minimumMonthlyNorm 160 ∧
     (checkMonthlyNorm settings0 zeroNormLedger "2025-01").meetsNorm =
      decide (jsOrNat settings0.minimumMonthlyNorm 160 ≤
        (checkMonthlyNorm settings0 zeroNormLedger "2025-01").currentHours)) :=
  ⟨rfl, c8_zero_norm_falls_back settings0 zeroNormLedger "2025-01" rfl⟩

/-- C8 counterexample: the claim says monthlyNorm = 0 must yield
percentage 100 and meetsNorm true regardless of completed hours; on a
zero-norm ledger with no online time the code returns meetsNorm false
and percentage 0. -/
theorem c8_zero_norm_not_special :
    (checkMonthlyNorm settings0 zeroNormLedger "2025-01").meetsNorm = false ∧
    (checkMonthlyNorm settings0 zeroNormLedger "2025-01").percentage = 0 := by
  constructor
  · decide
  · norm_num [checkMonthlyNorm, zeroNormLedger, seedLedger, getMonth,
      findMonth, jsOrNat]

end PlayerTracker
